import Mathlib

/-!
Verification of the rjvm bytecode interpreter (vm crate) against its
natural-language specification.  The definitions below are a shallow
embedding of the Rust sources: `call_frame.rs` (instruction dispatch,
arithmetic/shift/compare opcodes, exception handler search, virtual
method resolution, static field access, monitors, athrow),
`vm_error.rs` (the internal error kinds), `value.rs` (the tagged value
model and `matches_type`), and `class_path.rs` (classpath parsing).
Machine integers are embedded as `Int` with explicit two's-complement
wrapping where the Rust code wraps; `f32`/`f64` values appear only in
the compare opcodes and are embedded as IEEE-ordered values with an
explicit NaN.  Parts of the repository that are not among the source
files under scrutiny (the value stack, the exception-table lookup of
the reader crate, the class lookup helpers of the class manager) are
modelled from the specification and marked as such.
-/

namespace Rjvm

/-- Two's-complement wrapping of an integer into the `i32` range,
mirroring Rust's `wrapping_*` operations on `i32`. -/
def wrap32 (x : Int) : Int := (x + 2 ^ 31) % 2 ^ 32 - 2 ^ 31

/-- Two's-complement wrapping of an integer into the `i64` range,
mirroring Rust's wrapping semantics on `i64` (plain `+`/`-`/`*`/`<<`
on `i64` wrap modulo 2^64 when compiled without overflow checks). -/
def wrap64 (x : Int) : Int := (x + 2 ^ 63) % 2 ^ 64 - 2 ^ 63

/-- Arithmetic shift right of a two's-complement value: Rust `>>` on a
signed integer, which is a flooring division by a power of two. -/
def sar (a : Int) (n : Nat) : Int := Int.fdiv a (2 ^ n)

/-- Rust `b & 0x1f` on a two's-complement `i32`, i.e. the value modulo 32. -/
def mask5 (b : Int) : Nat := (b % 32).toNat

/-- Shallow embedding of an IEEE `f32`/`f64` as far as the compare
opcodes observe it: NaN, the two infinities, or a finite value (the two
signed zeros compare equal in IEEE and are both embedded as `fin 0`). -/
inductive JFloat where
  | nan : JFloat
  | negInf : JFloat
  | fin : ℚ → JFloat
  | posInf : JFloat
deriving DecidableEq, Repr

/-- IEEE `<` on floats: any comparison with NaN is false. -/
def JFloat.flt : JFloat → JFloat → Bool
  | .nan, _ => false
  | _, .nan => false
  | .negInf, .negInf => false
  | .negInf, _ => true
  | _, .negInf => false
  | .posInf, _ => false
  | .fin _, .posInf => true
  | .fin a, .fin b => a < b

/-- IEEE `>` on floats: any comparison with NaN is false. -/
def JFloat.fgt (a b : JFloat) : Bool := JFloat.flt b a

/-- The kind tag of an `AbstractObject` (abstract_object.rs): an
ordinary instance or an array. -/
inductive ObjectKind where
  | object
  | array
deriving DecidableEq, Repr

/-- The primitive base types of `field_type.rs` (reader crate). -/
inductive BaseType where
  | byte | char | double | float | int | long | short | boolean
deriving DecidableEq, Repr

/-- A field type descriptor (`FieldType` in field_type.rs): a base
type, an object type given by class name, or an array type. -/
inductive FieldType where
  | base (b : BaseType)
  | object (className : String)
  | array (componentType : FieldType)
deriving DecidableEq, Repr

/-- The element type of an array (`ArrayEntryType` in
array_entry_type.rs): a base type, object references to a class given
by id, or array-of-array (declared but unsupported). -/
inductive ArrayEntryType where
  | base (b : BaseType)
  | object (classId : Nat)
  | array
deriving DecidableEq, Repr

/-- A heap object reference as the interpreter observes it: identity
handle, kind tag, class id (meaningful for instances) and element type
(meaningful for arrays), per `AbstractObject` of abstract_object.rs. -/
structure AbsObject where
  ref : Nat
  kind : ObjectKind
  classId : Nat
  elementsType : ArrayEntryType
deriving DecidableEq, Repr

/-- The tagged value model of value.rs. -/
inductive JValue where
  | uninitialized
  | int (v : Int)
  | long (v : Int)
  | float (v : JFloat)
  | double (v : JFloat)
  | object (o : AbsObject)
  | null
deriving DecidableEq, Repr

/-- The interpreter-internal error kinds of vm_error.rs.  Note the
source's own doc comments on `NullPointerException`,
`ArithmeticException`, `ArrayIndexOutOfBoundsException` and
`ClassCastException`: "TODO: this should become throwing a real
`java.lang.*`" - i.e. in this revision they are internal errors, not
Java-level exception objects. -/
inductive VmError where
  | classLoadingError (message : String)
  | nullPointerException
  | classNotFoundException (className : String)
  | methodNotFoundException (className methodName methodTypeDescriptor : String)
  | fieldNotFoundException (className fieldName : String)
  | validationException
  | arithmeticException
  | notImplemented
  | arrayIndexOutOfBoundsException
  | classCastException
deriving DecidableEq, Repr

/-- Modelled from the spec: exceptions.rs is not among the sources
under scrutiny.  Per section 7 of the spec there are two orthogonal
failure axes: interpreter-internal errors (a bare `VmError`) and
Java-level exceptions (`JavaException`, wrapping the thrown
`AbstractObject`).  A `VmError` propagated through `?` becomes
`internalError`: the `From<VmError>` conversion has no access to the
Vm and therefore cannot allocate an exception object, which matches
the vm_error.rs TODO comments saying real `java.lang.*` exceptions are
not yet thrown for these errors. -/
inductive MethodCallFailed where
  | internalError (err : VmError)
  | exceptionThrown (exception : AbsObject)
deriving DecidableEq, Repr

/-- Modelled from the spec: value_stack.rs is not among the sources
under scrutiny.  Per sections 3 and 4.5 the operand stack is a LIFO of
values capped at the method's max-stack; pushing past the cap or
popping an empty stack is a `ValueStackError`, which vm_error.rs (in
the sources) converts to `VmError::ValidationException`.  The head of
`values` is the top of the stack. -/
structure ValueStack where
  maxSize : Nat
  values : List JValue
deriving DecidableEq, Repr

/-- A call frame as far as the embedded fragment observes it: program
counter, locals, operand stack, and the id of the class whose method
is executing (`class_and_method.class.id` in call_frame.rs). -/
structure Frame where
  pc : Nat
  locals : List JValue
  stack : ValueStack
  curClassId : Nat
deriving DecidableEq, Repr

/-- Replaces the operand-stack contents of a frame, keeping the cap. -/
def Frame.withValues (f : Frame) (vs : List JValue) : Frame :=
  { f with stack := { f.stack with values := vs } }

/-- Replaces the program counter of a frame. -/
def Frame.withPc (f : Frame) (pc : Nat) : Frame :=
  { f with pc := pc }

/-- A method as the dispatch code observes it: name and type
descriptor (`ClassFileMethod` of the reader crate). -/
structure JMethod where
  name : String
  descriptor : String
deriving DecidableEq, Repr

/-- An installed class as the interpreter observes it: stable id,
binary name, optional superclass (by id), methods, and the computed
instance-field layout.  The class.rs file in the sources under
scrutiny is a stale revision; the id, the field layout and the lookup
helpers are modelled from spec section 3 ("a stable 32-bit class id
assigned at installation; a computed field layout giving each instance
field an index, superclass fields laid out first"). -/
structure JClass where
  id : Nat
  name : String
  superId : Option Nat
  methods : List JMethod
  fieldLayout : List (String × FieldType)
deriving DecidableEq, Repr

/-- Looks a class up by binary name (the class manager's resolution of
an already-installed class; class_manager.rs is not among the sources
under scrutiny and is modelled from spec section 4.3). -/
def findClassByName (classes : List JClass) (n : String) : Option JClass :=
  classes.find? (fun c => c.name == n)

/-- Looks a class up by its numeric class id (spec section 9: "other
components hold class ids, not direct pointers; resolve by id-to-class
lookup"). -/
def findClassById (classes : List JClass) (i : Nat) : Option JClass :=
  classes.find? (fun c => c.id == i)

/-- Modelled from the spec: `Class::find_method` is not in the stale
class.rs of the sources; per section 4.5.2 a method is selected by
matching (name, descriptor) among the class's own methods. -/
def findMethod (c : JClass) (n d : String) : Option JMethod :=
  c.methods.find? (fun m => m.name == n && m.descriptor == d)

/-- Modelled from the spec: `Class::find_field` is not in the stale
class.rs of the sources; per section 3 the computed field layout gives
each field an index, and a field reference is resolved to that index
and the field's type descriptor. -/
def findField (c : JClass) (fieldName : String) : Option (Nat × FieldType) :=
  match c.fieldLayout.findIdx? (fun p => p.1 == fieldName) with
  | none => none
  | some i => (c.fieldLayout[i]?).map (fun p => (i, p.2))

/-- Modelled from the spec: `Class::is_subclass_of` is not in the
stale class.rs of the sources; a class is a subclass of another iff it
is the same class or its superclass chain reaches it (fuel-bounded
walk over the installed-class table; installed classes are acyclic by
the install invariant of spec section 3). -/
def isSubclassOfAux (classes : List JClass) : Nat → JClass → JClass → Bool
  | 0, _, _ => false
  | fuel + 1, c, target =>
    if c.id = target.id then true
    else
      match c.superId with
      | none => false
      | some sid =>
        match findClassById classes sid with
        | none => false
        | some sup => isSubclassOfAux classes fuel sup target

/-- Subclass test with enough fuel to traverse any chain in the table. -/
def isSubclassOf (classes : List JClass) (c target : JClass) : Bool :=
  isSubclassOfAux classes (classes.length + 1) c target

/-- Conversion of an array element type into a field type
(`ArrayEntryType::into_field_type`; array_entry_type.rs is not among
the sources under scrutiny, modelled from spec sections 3 and 9:
object element types are resolved by class id, nested arrays are
unsupported). -/
def ArrayEntryType.intoFieldType (classes : List JClass) : ArrayEntryType → Option FieldType
  | .base b => some (.base b)
  | .object cid => (findClassById classes cid).map (fun c => FieldType.object c.name)
  | .array => none

/-- The runtime type validation of value.rs (`Value::matches_type`),
translated arm by arm. -/
def matchesType (classes : List JClass) (v : JValue) (t : FieldType) : Bool :=
  match v with
  | .uninitialized => false
  | .int _ =>
    match t with
    | .base b =>
      match b with
      | .int | .byte | .char | .short | .boolean => true
      | _ => false
    | _ => false
  | .long _ =>
    match t with
    | .base b => b == BaseType.long
    | _ => false
  | .float _ =>
    match t with
    | .base b => b == BaseType.float
    | _ => false
  | .double _ =>
    match t with
    | .base b => b == BaseType.double
    | _ => false
  | .object o =>
    match o.kind with
    | .array =>
      match t with
      | .array expected =>
        match o.elementsType.intoFieldType classes with
        | some ft => ft == expected
        | none => false
      | _ => false
    | .object =>
      match t with
      | .object expectedName =>
        match findClassById classes o.classId with
        | none => false
        | some objectClass =>
          match findClassByName classes expectedName with
          | none => false
          | some expectedClass => isSubclassOf classes objectClass expectedClass
      | _ => false
  | .null =>
    match t with
    | .base _ => false
    | .object _ => true
    | .array _ => true

/-- The static instance of a class: a synthetic object holding the
class's static fields (spec section 3; the static-instance table
itself lives in the class manager, which is not among the sources
under scrutiny).  Static instances always have kind `Object`. -/
structure StaticInstance where
  fields : List JValue
deriving DecidableEq, Repr

/-- The pieces of the Vm that the embedded call-frame code consults:
the installed classes and the static-instance table (class id to
static instance). -/
structure VmState where
  classes : List JClass
  statics : List (Nat × StaticInstance)
deriving DecidableEq, Repr

/-- Lookup in the static-instance table (`Vm::get_static_instance`;
vm.rs is not among the sources under scrutiny, modelled from spec
section 3's "mapping from class id to a synthetic AbstractObject
holding that class's static fields"). -/
def lookupStatic (statics : List (Nat × StaticInstance)) (cid : Nat) : Option StaticInstance :=
  (statics.find? (fun p => p.1 == cid)).map (fun p => p.2)

/-- The outcome of executing one instruction body: the frame after all
side effects that happened before completion or failure (Rust mutates
the frame in place, so pops performed before an error persist), paired
with success or the failure.  This is the shape of the
`execute_*` helpers of call_frame.rs. -/
abbrev InstrOut := Frame × Except MethodCallFailed Unit

/-- Pops the top of the operand stack (`CallFrame::pop`); popping an
empty stack leaves the frame unchanged and fails with the validation
error that vm_error.rs assigns to value-stack errors. -/
def popF (f : Frame) : Frame × Except MethodCallFailed JValue :=
  match f.stack.values with
  | [] => (f, .error (.internalError .validationException))
  | v :: rest => (f.withValues rest, .ok v)

/-- Pops and requires an `Int` (the `generate_pop!` macro of
call_frame.rs): the value is consumed even when it has the wrong tag,
in which case the result is a validation error. -/
def popIntF (f : Frame) : Frame × Except MethodCallFailed Int :=
  match f.stack.values with
  | [] => (f, .error (.internalError .validationException))
  | .int v :: rest => (f.withValues rest, .ok v)
  | _ :: rest => (f.withValues rest, .error (.internalError .validationException))

/-- Pops and requires a `Long` (`generate_pop!`). -/
def popLongF (f : Frame) : Frame × Except MethodCallFailed Int :=
  match f.stack.values with
  | [] => (f, .error (.internalError .validationException))
  | .long v :: rest => (f.withValues rest, .ok v)
  | _ :: rest => (f.withValues rest, .error (.internalError .validationException))

/-- Pops and requires a `Float` (`generate_pop!`). -/
def popFloatF (f : Frame) : Frame × Except MethodCallFailed JFloat :=
  match f.stack.values with
  | [] => (f, .error (.internalError .validationException))
  | .float v :: rest => (f.withValues rest, .ok v)
  | _ :: rest => (f.withValues rest, .error (.internalError .validationException))

/-- Pops and requires a `Double` (`generate_pop!`). -/
def popDoubleF (f : Frame) : Frame × Except MethodCallFailed JFloat :=
  match f.stack.values with
  | [] => (f, .error (.internalError .validationException))
  | .double v :: rest => (f.withValues rest, .ok v)
  | _ :: rest => (f.withValues rest, .error (.internalError .validationException))

/-- Pushes a value (`CallFrame::push`); per the spec the operand stack
is capped at max-stack, and overflowing is a validation error that
leaves the frame unchanged. -/
def pushF (f : Frame) (v : JValue) : InstrOut :=
  if f.stack.values.length < f.stack.maxSize then
    (f.withValues (v :: f.stack.values), .ok ())
  else
    (f, .error (.internalError .validationException))

/-- The `generate_execute_math!` macro instantiated at `Int`
(`execute_int_math`): pop val2, pop val1, evaluate, push. -/
def executeIntMath (f : Frame) (ev : Int → Int → Except VmError Int) : InstrOut :=
  match popIntF f with
  | (f1, .error e) => (f1, .error e)
  | (f1, .ok val2) =>
    match popIntF f1 with
    | (f2, .error e) => (f2, .error e)
    | (f2, .ok val1) =>
      match ev val1 val2 with
      | .error e => (f2, .error (.internalError e))
      | .ok r => pushF f2 (.int r)

/-- `execute_long_math`: pop val2, pop val1 (both longs), evaluate,
push. -/
def executeLongMath (f : Frame) (ev : Int → Int → Except VmError Int) : InstrOut :=
  match popLongF f with
  | (f1, .error e) => (f1, .error e)
  | (f1, .ok val2) =>
    match popLongF f1 with
    | (f2, .error e) => (f2, .error e)
    | (f2, .ok val1) =>
      match ev val1 val2 with
      | .error e => (f2, .error (.internalError e))
      | .ok r => pushF f2 (.long r)

/-- `execute_long_shift`: the shift amount is an int popped first, the
value a long popped second. -/
def executeLongShift (f : Frame) (ev : Int → Int → Except VmError Int) : InstrOut :=
  match popIntF f with
  | (f1, .error e) => (f1, .error e)
  | (f1, .ok val2) =>
    match popLongF f1 with
    | (f2, .error e) => (f2, .error e)
    | (f2, .ok val1) =>
      match ev val1 val2 with
      | .error e => (f2, .error (.internalError e))
      | .ok r => pushF f2 (.long r)

/-- The comparison core of the `generate_compare!` macro: push
`signForGreater` if val1 > val2, its negation if val1 < val2, and 0
otherwise (in particular 0 whenever a float operand is NaN, since both
IEEE comparisons are then false). -/
def compareToValue (signForGreater : Int) (gt lt : Bool) : JValue :=
  if gt then .int signForGreater
  else if lt then .int (-signForGreater)
  else .int 0

/-- `execute_long_compare` (`generate_compare!` at Long). -/
def executeLongCompare (f : Frame) (signForGreater : Int) : InstrOut :=
  match popLongF f with
  | (f1, .error e) => (f1, .error e)
  | (f1, .ok val2) =>
    match popLongF f1 with
    | (f2, .error e) => (f2, .error e)
    | (f2, .ok val1) =>
      pushF f2 (compareToValue signForGreater (decide (val1 > val2)) (decide (val1 < val2)))

/-- `execute_float_compare` (`generate_compare!` at Float). -/
def executeFloatCompare (f : Frame) (signForGreater : Int) : InstrOut :=
  match popFloatF f with
  | (f1, .error e) => (f1, .error e)
  | (f1, .ok val2) =>
    match popFloatF f1 with
    | (f2, .error e) => (f2, .error e)
    | (f2, .ok val1) =>
      pushF f2 (compareToValue signForGreater (val1.fgt val2) (val1.flt val2))

/-- `execute_double_compare` (`generate_compare!` at Double). -/
def executeDoubleCompare (f : Frame) (signForGreater : Int) : InstrOut :=
  match popDoubleF f with
  | (f1, .error e) => (f1, .error e)
  | (f1, .ok val2) =>
    match popDoubleF f1 with
    | (f2, .error e) => (f2, .error e)
    | (f2, .ok val1) =>
      pushF f2 (compareToValue signForGreater (val1.fgt val2) (val1.flt val2))

/-- Whether a class name has the shape of an object-array descriptor,
i.e. starts with the two characters `[L` and ends with a semicolon
(the `class_name.starts_with("[L") && class_name.ends_with(';')` test
of `is_instanceof`, stated on the character list). -/
def isArrayClassName (s : String) : Bool :=
  (match s.data with
   | '[' :: 'L' :: _ => true
   | _ => false)
  && (match s.data.getLast? with
      | some c => c = ';'
      | none => false)

/-- The component class name of an object-array descriptor: the
characters between `[L` and the final semicolon (the
`&class_name[2..class_name.len() - 1]` slice of `is_instanceof`). -/
def arrayComponentName (s : String) : String := ⟨(s.data.drop 2).dropLast⟩

/-- The type-test core (`CallFrame::is_instanceof`, call_frame.rs):
given the class name from the constant pool and the value under test,
decide instance-of.  `"[L...;"` names are treated as single-level
object arrays; class resolution is a table lookup here (the class
manager is not among the sources and the spec's `get_or_resolve`
returns the installed class). -/
def isInstanceOf (vm : VmState) (className : String) (v : JValue) :
    Except MethodCallFailed Bool :=
  let isArray := isArrayClassName className
  let targetName := if isArray then arrayComponentName className else className
  match findClassByName vm.classes targetName with
  | none => .error (.internalError (.classNotFoundException targetName))
  | some expectedClass =>
    match v with
    | .null => .ok false
    | .object o =>
      match o.kind with
      | .object =>
        if isArray then .ok false
        else
          match findClassById vm.classes o.classId with
          | none => .error (.internalError .validationException)
          | some objectClass => .ok (isSubclassOf vm.classes objectClass expectedClass)
      | .array =>
        match o.elementsType with
        | .base _ => .ok false
        | .object cid =>
          match findClassById vm.classes cid with
          | none => .error (.internalError .validationException)
          | some componentsClass => .ok (isSubclassOf vm.classes componentsClass expectedClass)
        | .array => .ok false
    | _ => .error (.internalError .validationException)

/-- `CallFrame::execute_checkcast`: pop the value; if it is an
instance of the named class push it back, otherwise fail with the
interpreter-internal error `VmError::ClassCastException`. -/
def executeCheckcast (vm : VmState) (f : Frame) (className : String) : InstrOut :=
  match popF f with
  | (f1, .error e) => (f1, .error e)
  | (f1, .ok v) =>
    match isInstanceOf vm className v with
    | .error e => (f1, .error e)
    | .ok true => pushF f1 v
    | .ok false => (f1, .error (.internalError .classCastException))

/-- `CallFrame::execute_getstatic`: resolve the class named by the
field reference, find the field's layout index in that class, but read
the static instance of the class whose method is currently executing
(`self.class_and_method.class.id` in the source), validate the value's
type and push it. -/
def executeGetstatic (vm : VmState) (f : Frame) (className fieldName : String) : InstrOut :=
  match findClassByName vm.classes className with
  | none => (f, .error (.internalError (.classNotFoundException className)))
  | some objectClass =>
    match findField objectClass fieldName with
    | none => (f, .error (.internalError (.fieldNotFoundException className fieldName)))
    | some (index, fieldType) =>
      match lookupStatic vm.statics f.curClassId with
      | none => (f, .error (.internalError .validationException))
      | some staticObj =>
        match staticObj.fields[index]? with
        | none => (f, .error (.internalError .validationException))
        | some fieldValue =>
          if matchesType vm.classes fieldValue fieldType then pushF f fieldValue
          else (f, .error (.internalError .validationException))

/-- `CallFrame::execute_monitorenter`: pop the operand; succeed
silently on an object reference (no lock exists), fail with a
validation error otherwise. -/
def executeMonitorenter (f : Frame) : InstrOut :=
  match popF f with
  | (f1, .error e) => (f1, .error e)
  | (f1, .ok v) =>
    match v with
    | .object _ => (f1, .ok ())
    | _ => (f1, .error (.internalError .validationException))

/-- `CallFrame::execute_monitorexit`: same body as monitorenter. -/
def executeMonitorexit (f : Frame) : InstrOut :=
  match popF f with
  | (f1, .error e) => (f1, .error e)
  | (f1, .ok v) =>
    match v with
    | .object _ => (f1, .ok ())
    | _ => (f1, .error (.internalError .validationException))

/-- `CallFrame::execute_athrow`: pop the operand; an object reference
becomes a thrown Java exception, anything else (including `Null`) is a
`ValidationException` internal error. -/
def executeAthrow (f : Frame) : InstrOut :=
  match popF f with
  | (f1, .error e) => (f1, .error e)
  | (f1, .ok v) =>
    match v with
    | .object exception => (f1, .error (.exceptionThrown exception))
    | _ => (f1, .error (.internalError .validationException))

/-- The embedded instruction subset (the opcodes the claims are
about), with constant-pool operands already decoded to their
referenced names, as the `get_constant_*` accessors of call_frame.rs
produce them. -/
inductive Instr where
  | iadd | isub | imul | idiv | irem
  | ladd | lsub | lmul | ldiv | lrem
  | ishl | ishr | iushr
  | lshl | lshr | lushr
  | lcmp | fcmpg | fcmpl | dcmpg | dcmpl
  | monitorenter | monitorexit
  | athrow
  | checkcast (className : String)
  | getstatic (className fieldName : String)
deriving DecidableEq, Repr

/-- The dispatch arms of `CallFrame::execute_instruction` for the
embedded subset, with each evaluator closure translated literally:
wrapping add/sub/mul for int, native (wrapping) arithmetic for long,
division and remainder guarded by a zero test that raises
`VmError::ArithmeticException`, shift counts masked by `0x1f` for both
the 32-bit and the 64-bit shifts, and the compare opcodes instantiated
with their `sign_for_greater` arguments (Lcmp 1, Fcmpg -1, Fcmpl 1,
Dcmpg -1, Dcmpl 1). -/
def executeInstruction (vm : VmState) (f : Frame) : Instr → InstrOut
  | .iadd => executeIntMath f (fun a b => .ok (wrap32 (a + b)))
  | .isub => executeIntMath f (fun a b => .ok (wrap32 (a - b)))
  | .imul => executeIntMath f (fun a b => .ok (wrap32 (a * b)))
  | .idiv => executeIntMath f (fun a b =>
      if b = 0 then .error .arithmeticException else .ok (wrap32 (Int.tdiv a b)))
  | .irem => executeIntMath f (fun a b =>
      if b = 0 then .error .arithmeticException else .ok (wrap32 (Int.tmod a b)))
  | .ladd => executeLongMath f (fun a b => .ok (wrap64 (a + b)))
  | .lsub => executeLongMath f (fun a b => .ok (wrap64 (a - b)))
  | .lmul => executeLongMath f (fun a b => .ok (wrap64 (a * b)))
  | .ldiv => executeLongMath f (fun a b =>
      if b = 0 then .error .arithmeticException else .ok (Int.tdiv a b))
  | .lrem => executeLongMath f (fun a b =>
      if b = 0 then .error .arithmeticException else .ok (Int.tmod a b))
  | .ishl => executeIntMath f (fun a b => .ok (wrap32 (a * 2 ^ mask5 b)))
  | .ishr => executeIntMath f (fun a b => .ok (sar a (mask5 b)))
  | .iushr => executeIntMath f (fun a b =>
      .ok (if a > 0 then sar a (mask5 b) else wrap32 (sar (a % 2 ^ 32) (mask5 b))))
  | .lshl => executeLongShift f (fun a b => .ok (wrap64 (a * 2 ^ mask5 b)))
  | .lshr => executeLongShift f (fun a b => .ok (sar a (mask5 b)))
  | .lushr => executeLongShift f (fun a b =>
      .ok (if a > 0 then sar a (mask5 b) else wrap64 (sar (a % 2 ^ 64) (mask5 b))))
  | .lcmp => executeLongCompare f 1
  | .fcmpg => executeFloatCompare f (-1)
  | .fcmpl => executeFloatCompare f 1
  | .dcmpg => executeDoubleCompare f (-1)
  | .dcmpl => executeDoubleCompare f 1
  | .monitorenter => executeMonitorenter f
  | .monitorexit => executeMonitorexit f
  | .athrow => executeAthrow f
  | .checkcast className => executeCheckcast vm f className
  | .getstatic className fieldName => executeGetstatic vm f className fieldName

/-- An exception-table entry (spec section 3): half-open bytecode
range, handler pc, and an optional caught-class name (`None` is the
catch-any used by finally blocks). -/
structure ExcEntry where
  startPc : Nat
  endPc : Nat
  handlerPc : Nat
  catchClass : Option String
deriving DecidableEq, Repr

/-- Modelled from the spec: the reader crate's exception-table lookup
is not among the sources under scrutiny; per spec sections 3 and 4.5.3
it returns, in table order, the entries whose half-open range
[start_pc, end_pc) contains the pc. -/
def excLookup (table : List ExcEntry) (pc : Nat) : List ExcEntry :=
  table.filter (fun e => e.startPc ≤ pc && pc < e.endPc)

/-- The linear scan of `CallFrame::find_exception_handler` over the
entries produced by the table lookup: a catch-any entry matches
unconditionally; a named entry matches when the thrown object's class
is a subclass of the (resolved) catch class; resolution failures
surface as errors. -/
def handlerScan (vm : VmState) (exc : AbsObject) :
    List ExcEntry → Except MethodCallFailed (Option Nat)
  | [] => .ok none
  | e :: rest =>
    match e.catchClass with
    | none => .ok (some e.handlerPc)
    | some className =>
      match findClassByName vm.classes className with
      | none => .error (.internalError (.classNotFoundException className))
      | some catchClass =>
        match findClassById vm.classes exc.classId with
        | none => .error (.internalError .validationException)
        | some exceptionClass =>
          if isSubclassOf vm.classes exceptionClass catchClass then .ok (some e.handlerPc)
          else handlerScan vm exc rest

/-- `CallFrame::find_exception_handler`: search the entries covering
the pc of the faulting instruction (the pc before the interpreter's
pre-increment, passed in by the dispatch loop). -/
def findExceptionHandler (vm : VmState) (table : List ExcEntry) (pc : Nat)
    (exc : AbsObject) : Except MethodCallFailed (Option Nat) :=
  handlerScan vm exc (excLookup table pc)

/-- What one iteration of the dispatch loop reports to its caller. -/
inductive StepOutcome where
  | next (f : Frame)
  | failed (e : MethodCallFailed)
deriving DecidableEq, Repr

/-- One iteration of the dispatch loop of `CallFrame::execute` for a
non-return instruction: remember the executed instruction's pc,
advance the pc past the instruction (all embedded opcodes occupy one
byte), execute, and then: continue on success; return internal errors
to the caller unchanged (no handler search); on a thrown exception
search the handler table at the pre-increment pc, and on a match push
the thrown object on the operand stack (which is not cleared) and
resume at the handler pc, otherwise bubble the exception up. -/
def stepWithHandlers (vm : VmState) (table : List ExcEntry) (f : Frame)
    (i : Instr) : StepOutcome :=
  let executedInstructionPc := f.pc
  match executeInstruction vm (f.withPc (f.pc + 1)) i with
  | (f2, .ok ()) => .next f2
  | (_, .error (.internalError err)) => .failed (.internalError err)
  | (f2, .error (.exceptionThrown exception)) =>
    match findExceptionHandler vm table executedInstructionPc exception with
    | .error err => .failed err
    | .ok none => .failed (.exceptionThrown exception)
    | .ok (some catchHandlerPc) =>
      match pushF f2 (.object exception) with
      | (f3, .ok ()) => .next (f3.withPc catchHandlerPc)
      | (_, .error err) => .failed err

/-- The superclass-chain method search of
`CallFrame::get_method_checking_superclasses`: try the class itself,
then walk `superclass` upward; when the chain is exhausted the result
is the `MethodNotFoundException` internal error naming the class the
search started from.  The walk is fuel-bounded (installed classes are
acyclic). -/
def methodChainSearch (classes : List JClass) (startName n d : String) :
    Nat → JClass → Except MethodCallFailed (JClass × JMethod)
  | 0, _ => .error (.internalError (.methodNotFoundException startName n d))
  | fuel + 1, c =>
    match findMethod c n d with
    | some m => .ok (c, m)
    | none =>
      match c.superId with
      | none => .error (.internalError (.methodNotFoundException startName n d))
      | some sid =>
        match findClassById classes sid with
        | none => .error (.internalError (.methodNotFoundException startName n d))
        | some sup => methodChainSearch classes startName n d fuel sup

/-- `CallFrame::get_method_checking_superclasses` with enough fuel to
traverse any chain in the installed-class table. -/
def getMethodCheckingSuperclasses (classes : List JClass) (c : JClass) (n d : String) :
    Except MethodCallFailed (JClass × JMethod) :=
  methodChainSearch classes c.name n d (classes.length + 1) c

/-- `CallFrame::resolve_virtual_method`: for an instance receiver,
look the receiver's runtime class up by its class id and redo the
(name, descriptor) search from that class upward, overriding the
statically selected method; a missing or non-instance receiver is a
validation error. -/
def resolveVirtualMethod (classes : List JClass) (receiver : Option AbsObject)
    (classAndMethod : JClass × JMethod) : Except MethodCallFailed (JClass × JMethod) :=
  match receiver with
  | some r =>
    match r.kind with
    | .object =>
      match findClassById classes r.classId with
      | none => .error (.internalError (.classNotFoundException (toString r.classId)))
      | some receiverClass =>
        getMethodCheckingSuperclasses classes receiverClass
          classAndMethod.2.name classAndMethod.2.descriptor
    | .array => .error (.internalError .validationException)
  | none => .error (.internalError .validationException)

/-- A parsed classpath entry of class_path.rs: each colon-separated
component is tried first as a jar archive, then as a directory. -/
inductive CPEntry where
  | jarEntry (path : String)
  | dirEntry (path : String)
deriving DecidableEq, Repr

/-- The error type of classpath parsing (`ClassPathParseError`). -/
inductive ClassPathParseError where
  | invalidEntry (entry : String)
deriving DecidableEq, Repr

/-- `ClassPath::try_parse_entry`: try the component as a jar, then as
a directory; if both fail the result is `InvalidEntry` carrying the
component.  Whether the jar or directory constructor succeeds depends
on the injected filesystem (an external collaborator), abstracted here
as the two predicates. -/
def tryParseEntry (tryJar tryDir : String → Bool) (path : String) :
    Except ClassPathParseError CPEntry :=
  if tryJar path then .ok (.jarEntry path)
  else if tryDir path then .ok (.dirEntry path)
  else .error (.invalidEntry path)

/-- The loop body of `ClassPath::push`: parse each component in order,
accumulating parsed entries in the local `entries_to_add` vector, and
return at the first failure. -/
def pushLoop (tryJar tryDir : String → Bool) (entriesToAdd : List CPEntry) :
    List String → Except ClassPathParseError (List CPEntry)
  | [] => .ok entriesToAdd
  | e :: rest =>
    match tryParseEntry tryJar tryDir e with
    | .error err => .error err
    | .ok parsed => pushLoop tryJar tryDir (entriesToAdd ++ [parsed]) rest

/-- The classpath: an ordered list of entries. -/
structure ClassPath where
  entries : List CPEntry
deriving DecidableEq, Repr

/-- Splitting on the colon character, with the semantics of Rust's
`str::split(':')`: every colon separates two components, empty
components are kept, and the empty string yields one empty
component. -/
def splitColonAux : List Char → List Char → List (List Char)
  | [], acc => [acc.reverse]
  | c :: cs, acc =>
    if c = ':' then acc.reverse :: splitColonAux cs []
    else splitColonAux cs (c :: acc)

/-- The colon-separated components of a classpath string. -/
def splitColon (s : String) : List String :=
  (splitColonAux s.data []).map (fun l => ⟨l⟩)

/-- `ClassPath::push`: split the string on colons, parse every
component into the local `entries_to_add` list, and only after the
whole loop append them to the classpath; an early `?` return leaves
`self.entries` untouched.  The mutable receiver is embedded by
returning the resulting classpath next to the call's result. -/
def ClassPath.push (tryJar tryDir : String → Bool) (cp : ClassPath) (s : String) :
    Except ClassPathParseError Unit × ClassPath :=
  match pushLoop tryJar tryDir [] (splitColon s) with
  | .error err => (.error err, cp)
  | .ok entriesToAdd => (.ok (), { entries := cp.entries ++ entriesToAdd })

/-- The first component of a list that parses neither as a jar nor as
a directory - the component whose failure `ClassPath::push` reports. -/
def firstFailing (tryJar tryDir : String → Bool) (l : List String) : Option String :=
  l.find? (fun e => !(tryJar e || tryDir e))

/-- Whether a value is an object reference (used to state which
operands the monitor opcodes accept). -/
def JValue.isObjectRef : JValue → Bool
  | .object _ => true
  | _ => false

/-- The matching condition of one exception-table entry against a
thrown object, as a pure predicate: a catch-any entry matches; a named
entry matches when both the catch class and the thrown object's class
resolve and the latter is a subclass of the former.  Used to
characterise the handler scan as a first-match search. -/
def entryMatches (vm : VmState) (exc : AbsObject) (e : ExcEntry) : Bool :=
  match e.catchClass with
  | none => true
  | some className =>
    match findClassByName vm.classes className with
    | none => false
    | some catchClass =>
      match findClassById vm.classes exc.classId with
      | none => false
      | some exceptionClass => isSubclassOf vm.classes exceptionClass catchClass

/-- Whether every named catch class of a table entry list resolves in
the installed-class table (the resolution side condition under which
the handler scan is a pure first-match search). -/
def allCatchClassesResolve (vm : VmState) (table : List ExcEntry) : Bool :=
  table.all (fun e =>
    match e.catchClass with
    | none => true
    | some className => (findClassByName vm.classes className).isSome)

/-- Fixture: a bootstrap `java/lang/Object` class. -/
def objectClassFx : JClass := ⟨0, "java/lang/Object", none, [], []⟩

/-- Fixture: `java/lang/ArithmeticException` extending Object. -/
def arithClassFx : JClass := ⟨1, "java/lang/ArithmeticException", some 0, [], []⟩

/-- Fixture: a Vm knowing Object and ArithmeticException, no statics. -/
def vmFx : VmState := ⟨[objectClassFx, arithClassFx], []⟩

/-- Fixture: a Vm with no classes and no statics. -/
def vmEmptyFx : VmState := ⟨[], []⟩

/-- Fixture: an exception table with one catch-any entry covering
pcs 0 to 9 with handler at 20. -/
def tblCatchAllFx : List ExcEntry := [⟨0, 10, 20, none⟩]

/-- Fixture: an exception table with one entry catching
ArithmeticException, covering pcs 0 to 9 with handler at 20. -/
def tblCatchArithFx : List ExcEntry := [⟨0, 10, 20, some "java/lang/ArithmeticException"⟩]

/-- Fixture: an instance of Object. -/
def objInstFx : AbsObject := ⟨5, .object, 0, .base .int⟩

/-- Fixture: an ArithmeticException instance (class id 1). -/
def excObjFx : AbsObject := ⟨3, .object, 1, .base .int⟩

/-- Fixture: the method m()I as a (name, descriptor) pair. -/
def methodMFx : JMethod := ⟨"m", "()I"⟩

/-- Fixture: class A declaring m()I. -/
def classAFx : JClass := ⟨10, "A", none, [methodMFx], []⟩

/-- Fixture: class B extending A and overriding m()I. -/
def classBFx : JClass := ⟨11, "B", some 10, [methodMFx], []⟩

/-- Fixture: class C extending B, not declaring m. -/
def classCFx : JClass := ⟨12, "C", some 11, [], []⟩

/-- Fixture: class A with one static int field y, for the static
field-access scenario. -/
def staticClassAFx : JClass := ⟨0, "A", none, [], [("y", .base .int)]⟩

/-- Fixture: class B with one static int field x. -/
def staticClassBFx : JClass := ⟨1, "B", none, [], [("x", .base .int)]⟩

/-- Fixture: a Vm where class A's static instance holds int 11 and
class B's static instance holds int 22. -/
def vmStaticsFx : VmState :=
  ⟨[staticClassAFx, staticClassBFx], [(0, ⟨[.int 11]⟩), (1, ⟨[.int 22]⟩)]⟩

/-- Helper: when every named catch class of the scanned entries
resolves and the thrown object's class resolves, the handler scan is
exactly a first-match search (in list order) with the pure matching
predicate. -/
theorem handlerScan_eq_find (vm : VmState) (exc : AbsObject) (l : List ExcEntry)
    (hres : ∀ e ∈ l, ∀ cn, e.catchClass = some cn →
      (findClassByName vm.classes cn).isSome = true)
    (hexc : (findClassById vm.classes exc.classId).isSome = true) :
    handlerScan vm exc l = .ok ((l.find? (entryMatches vm exc)).map (fun e => e.handlerPc)) := by
  induction l with
  | nil => simp [handlerScan]
  | cons e rest ih =>
    have hrest : ∀ e2 ∈ rest, ∀ cn, e2.catchClass = some cn →
        (findClassByName vm.classes cn).isSome = true := by
      intro e2 he2 cn hcn
      exact hres e2 (List.mem_cons_of_mem _ he2) cn hcn
    cases hcc : e.catchClass with
    | none =>
      simp [handlerScan, List.find?, entryMatches, hcc]
    | some cn =>
      have := hres e (List.mem_cons_self _ _) cn hcc
      cases hfc : findClassByName vm.classes cn with
      | none => rw [hfc] at this; simp at this
      | some catchClass =>
        cases hfe : findClassById vm.classes exc.classId with
        | none => rw [hfe] at hexc; simp at hexc
        | some exceptionClass =>
          by_cases hsub : isSubclassOf vm.classes exceptionClass catchClass = true
          · simp [handlerScan, hcc, hfc, hfe, hsub, List.find?, entryMatches]
          · simp only [Bool.not_eq_true] at hsub
            simp [handlerScan, hcc, hfc, hfe, hsub, List.find?, entryMatches, ih hrest]

/-- Helper: the push loop reports the first component that parses
neither as a jar nor as a directory, whatever was accumulated. -/
theorem pushLoop_first_fail (tryJar tryDir : String → Bool) (p : String) :
    ∀ (l : List String) (acc : List CPEntry),
      firstFailing tryJar tryDir l = some p →
      pushLoop tryJar tryDir acc l = .error (.invalidEntry p) := by
  intro l
  induction l with
  | nil => intro acc h; simp [firstFailing] at h
  | cons e rest ih =>
    intro acc h
    by_cases hj : tryJar e = true
    · have hrest : firstFailing tryJar tryDir rest = some p := by
        simpa [firstFailing, List.find?, hj] using h
      simpa [pushLoop, tryParseEntry, hj] using ih _ hrest
    · simp only [Bool.not_eq_true] at hj
      by_cases hd : tryDir e = true
      · have hrest : firstFailing tryJar tryDir rest = some p := by
          simpa [firstFailing, List.find?, hj, hd] using h
        simpa [pushLoop, tryParseEntry, hj, hd] using ih _ hrest
      · simp only [Bool.not_eq_true] at hd
        have hpe : p = e := by
          have h2 := h
          simp [firstFailing, List.find?, hj, hd] at h2
          exact h2.symm
        subst hpe
        simp [pushLoop, tryParseEntry, hj, hd]

/-- C1 counterexample: an integer division by zero executed under an
exception-table entry that catches ArithmeticException does not resume
at the handler but fails with the interpreter-internal
`VmError::ArithmeticException`, and a failed checkcast executed under
a catch-any entry fails with the internal `VmError::ClassCastException`;
neither reaches the handler search as a Java exception object, so
neither is catchable by bytecode. -/
theorem c1_counterexample :
    stepWithHandlers vmFx tblCatchArithFx
      (⟨0, [], ⟨8, [.int 0, .int 7]⟩, 0⟩ : Frame) .idiv
      = .failed (.internalError .arithmeticException)
    ∧ stepWithHandlers vmFx tblCatchAllFx
        (⟨0, [], ⟨8, [.object objInstFx]⟩, 0⟩ : Frame)
        (.checkcast "java/lang/ArithmeticException")
      = .failed (.internalError .classCastException) := by
  exact ⟨by decide, by decide⟩

/-- C1 (as amended): idiv, irem, ldiv and lrem with a zero divisor,
and a checkcast whose operand is not an instance of the named class,
fail with the interpreter-internal errors
`VmError::ArithmeticException` and `VmError::ClassCastException`
respectively; the dispatch loop returns internal errors to the caller
without consulting the exception table (whatever the table contains),
so these failures are not catchable by bytecode. -/
theorem c1_internal_error_not_catchable (vm : VmState) (tbl : List ExcEntry)
    (f g h : Frame) (a b : Int) (v : JValue) (cn : String)
    (rest rest2 rest3 : List JValue)
    (hdiv : f.stack.values = .int 0 :: .int a :: rest)
    (hldiv : g.stack.values = .long 0 :: .long b :: rest2)
    (hcast : h.stack.values = v :: rest3)
    (hinst : isInstanceOf vm cn v = .ok false) :
    stepWithHandlers vm tbl f .idiv = .failed (.internalError .arithmeticException)
    ∧ stepWithHandlers vm tbl f .irem = .failed (.internalError .arithmeticException)
    ∧ stepWithHandlers vm tbl g .ldiv = .failed (.internalError .arithmeticException)
    ∧ stepWithHandlers vm tbl g .lrem = .failed (.internalError .arithmeticException)
    ∧ stepWithHandlers vm tbl h (.checkcast cn)
        = .failed (.internalError .classCastException) := by
  refine ⟨?_, ?_, ?_, ?_, ?_⟩
  · simp [stepWithHandlers, executeInstruction, executeIntMath, popIntF,
      Frame.withPc, Frame.withValues, hdiv]
  · simp [stepWithHandlers, executeInstruction, executeIntMath, popIntF,
      Frame.withPc, Frame.withValues, hdiv]
  · simp [stepWithHandlers, executeInstruction, executeLongMath, popLongF,
      Frame.withPc, Frame.withValues, hldiv]
  · simp [stepWithHandlers, executeInstruction, executeLongMath, popLongF,
      Frame.withPc, Frame.withValues, hldiv]
  · simp [stepWithHandlers, executeInstruction, executeCheckcast, popF,
      Frame.withPc, Frame.withValues, hcast, hinst]

/-- C1 witness: the amended theorem applied to a division by zero and
a failed cast under handlers that would catch the corresponding Java
exceptions. -/
theorem c1_witness :
    ((⟨0, [], ⟨8, [.int 0, .int 7]⟩, 0⟩ : Frame).stack.values
        = .int 0 :: .int 7 :: []
      ∧ (⟨0, [], ⟨8, [.long 0, .long 9]⟩, 0⟩ : Frame).stack.values
        = .long 0 :: .long 9 :: []
      ∧ (⟨0, [], ⟨8, [.object objInstFx]⟩, 0⟩ : Frame).stack.values
        = .object objInstFx :: []
      ∧ isInstanceOf vmFx "java/lang/ArithmeticException" (.object objInstFx) = .ok false)
    ∧ (stepWithHandlers vmFx tblCatchArithFx
          (⟨0, [], ⟨8, [.int 0, .int 7]⟩, 0⟩ : Frame) .idiv
        = .failed (.internalError .arithmeticException)
      ∧ stepWithHandlers vmFx tblCatchArithFx
          (⟨0, [], ⟨8, [.int 0, .int 7]⟩, 0⟩ : Frame) .irem
        = .failed (.internalError .arithmeticException)
      ∧ stepWithHandlers vmFx tblCatchArithFx
          (⟨0, [], ⟨8, [.long 0, .long 9]⟩, 0⟩ : Frame) .ldiv
        = .failed (.internalError .arithmeticException)
      ∧ stepWithHandlers vmFx tblCatchArithFx
          (⟨0, [], ⟨8, [.long 0, .long 9]⟩, 0⟩ : Frame) .lrem
        = .failed (.internalError .arithmeticException)
      ∧ stepWithHandlers vmFx tblCatchArithFx
          (⟨0, [], ⟨8, [.object objInstFx]⟩, 0⟩ : Frame)
          (.checkcast "java/lang/ArithmeticException")
        = .failed (.internalError .classCastException)) :=
  ⟨⟨rfl, rfl, rfl, rfl⟩,
    c1_internal_error_not_catchable vmFx tblCatchArithFx
      (⟨0, [], ⟨8, [.int 0, .int 7]⟩, 0⟩ : Frame)
      (⟨0, [], ⟨8, [.long 0, .long 9]⟩, 0⟩ : Frame)
      (⟨0, [], ⟨8, [.object objInstFx]⟩, 0⟩ : Frame)
      7 9 (.object objInstFx) "java/lang/ArithmeticException" [] [] []
      rfl rfl rfl rfl⟩

/-- C2 counterexample: an exception caught by a matching handler is
pushed on top of the frame's existing operand stack; the operand stack
is not cleared (the resulting stack still holds the int 7 that was
below the thrown object, where the claim demands the stack to contain
only the thrown object). -/
theorem c2_counterexample :
    stepWithHandlers vmFx tblCatchAllFx
      (⟨0, [], ⟨8, [.object excObjFx, .int 7]⟩, 0⟩ : Frame) .athrow
      = .next (⟨20, [], ⟨8, [.object excObjFx, .int 7]⟩, 0⟩ : Frame)
    ∧ ([.object excObjFx, .int 7] : List JValue) ≠ [.object excObjFx] := by
  exact ⟨by decide, by decide⟩

/-- C2 (as amended): the handler is searched among the entries whose
half-open range contains the pc of the faulting instruction (the pc
before the interpreter advanced it), taking in table order the first
entry whose catch class is absent or resolves to a superclass of the
thrown object's class; on a match the thrown object is pushed onto the
frame's EXISTING operand stack (the stack is not cleared), pc is set
to handler_pc and dispatch resumes; with no match the exception
propagates to the caller. -/
theorem c2_handler_search (vm : VmState) (tbl : List ExcEntry) (f : Frame)
    (exc : AbsObject) (rest : List JValue)
    (hstack : f.stack.values = .object exc :: rest)
    (hcap : f.stack.values.length ≤ f.stack.maxSize)
    (hres : allCatchClassesResolve vm tbl = true)
    (hexc : (findClassById vm.classes exc.classId).isSome = true) :
    findExceptionHandler vm tbl f.pc exc
      = .ok (((excLookup tbl f.pc).find? (entryMatches vm exc)).map (fun e => e.handlerPc))
    ∧ stepWithHandlers vm tbl f .athrow
      = (match (excLookup tbl f.pc).find? (entryMatches vm exc) with
         | some e =>
           .next ⟨e.handlerPc, f.locals, ⟨f.stack.maxSize, .object exc :: rest⟩, f.curClassId⟩
         | none => .failed (.exceptionThrown exc)) := by
  have hres2 : ∀ e ∈ excLookup tbl f.pc, ∀ cn, e.catchClass = some cn →
      (findClassByName vm.classes cn).isSome = true := by
    intro e he cn hcn
    have hmem : e ∈ tbl := (List.mem_filter.mp he).1
    have hall := (List.all_eq_true.mp hres) e hmem
    rw [hcn] at hall
    simpa using hall
  have hscan := handlerScan_eq_find vm exc (excLookup tbl f.pc) hres2 hexc
  have hfind : findExceptionHandler vm tbl f.pc exc
      = .ok (((excLookup tbl f.pc).find? (entryMatches vm exc)).map (fun e => e.handlerPc)) := by
    simpa [findExceptionHandler] using hscan
  refine ⟨hfind, ?_⟩
  have hlen : rest.length < f.stack.maxSize := by
    rw [hstack] at hcap; simp at hcap; omega
  cases hfd : (excLookup tbl f.pc).find? (entryMatches vm exc) with
  | none =>
    rw [hfd] at hfind
    simp [stepWithHandlers, executeInstruction, executeAthrow, popF, Frame.withPc,
      Frame.withValues, hstack, hfind]
  | some e =>
    rw [hfd] at hfind
    simp [stepWithHandlers, executeInstruction, executeAthrow, popF, Frame.withPc,
      Frame.withValues, hstack, hfind, pushF, hlen]

/-- C2 witness: the amended theorem applied to an ArithmeticException
instance thrown at pc 0 under a table whose only entry catches
ArithmeticException on the range 0 to 9 with handler 20: the entry is
selected and the exception is pushed on the non-cleared stack. -/
theorem c2_witness :
    ((⟨0, [], ⟨8, [.object excObjFx, .int 7]⟩, 0⟩ : Frame).stack.values
        = .object excObjFx :: [.int 7]
      ∧ (⟨0, [], ⟨8, [.object excObjFx, .int 7]⟩, 0⟩ : Frame).stack.values.length
        ≤ (⟨0, [], ⟨8, [.object excObjFx, .int 7]⟩, 0⟩ : Frame).stack.maxSize
      ∧ allCatchClassesResolve vmFx tblCatchArithFx = true
      ∧ (findClassById vmFx.classes excObjFx.classId).isSome = true)
    ∧ (findExceptionHandler vmFx tblCatchArithFx
          (⟨0, [], ⟨8, [.object excObjFx, .int 7]⟩, 0⟩ : Frame).pc excObjFx
        = .ok (((excLookup tblCatchArithFx
              (⟨0, [], ⟨8, [.object excObjFx, .int 7]⟩, 0⟩ : Frame).pc).find?
                (entryMatches vmFx excObjFx)).map (fun e => e.handlerPc))
      ∧ stepWithHandlers vmFx tblCatchArithFx
          (⟨0, [], ⟨8, [.object excObjFx, .int 7]⟩, 0⟩ : Frame) .athrow
        = (match (excLookup tblCatchArithFx
              (⟨0, [], ⟨8, [.object excObjFx, .int 7]⟩, 0⟩ : Frame).pc).find?
                (entryMatches vmFx excObjFx) with
           | some e =>
             .next ⟨e.handlerPc,
               (⟨0, [], ⟨8, [.object excObjFx, .int 7]⟩, 0⟩ : Frame).locals,
               ⟨(⟨0, [], ⟨8, [.object excObjFx, .int 7]⟩, 0⟩ : Frame).stack.maxSize,
                 .object excObjFx :: [.int 7]⟩,
               (⟨0, [], ⟨8, [.object excObjFx, .int 7]⟩, 0⟩ : Frame).curClassId⟩
           | none => .failed (.exceptionThrown excObjFx))) :=
  ⟨⟨rfl, by decide, by decide, by decide⟩,
    c2_handler_search vmFx tblCatchArithFx
      (⟨0, [], ⟨8, [.object excObjFx, .int 7]⟩, 0⟩ : Frame) excObjFx [.int 7]
      rfl (by decide) (by decide) (by decide)⟩

/-- C3: the 64-bit shifts lshl, lshr and lushr mask the int shift
count with 0x1f, not 0x3f - shifting the long 1 by 32 leaves it
unchanged (count 32 masked to 0), where the claimed 0x3f mask would
give 2^32 (for lshl), while the 32-bit shifts do mask with 0x1f
(shifting by 33 acts as shifting by 1).  The final conjuncts evaluate
the 0x3f-masked result the claim demands, which differs. -/
theorem c3_long_shift_mask_eval :
    executeInstruction vmEmptyFx (⟨0, [], ⟨8, [.int 32, .long 1]⟩, 0⟩ : Frame) .lshl
      = ((⟨0, [], ⟨8, [.long 1]⟩, 0⟩ : Frame), .ok ())
    ∧ executeInstruction vmEmptyFx (⟨0, [], ⟨8, [.int 32, .long 1]⟩, 0⟩ : Frame) .lshr
      = ((⟨0, [], ⟨8, [.long 1]⟩, 0⟩ : Frame), .ok ())
    ∧ executeInstruction vmEmptyFx (⟨0, [], ⟨8, [.int 32, .long 1]⟩, 0⟩ : Frame) .lushr
      = ((⟨0, [], ⟨8, [.long 1]⟩, 0⟩ : Frame), .ok ())
    ∧ executeInstruction vmEmptyFx (⟨0, [], ⟨8, [.int 33, .int 1]⟩, 0⟩ : Frame) .ishl
      = ((⟨0, [], ⟨8, [.int 2]⟩, 0⟩ : Frame), .ok ())
    ∧ executeInstruction vmEmptyFx (⟨0, [], ⟨8, [.int 33, .int 2]⟩, 0⟩ : Frame) .ishr
      = ((⟨0, [], ⟨8, [.int 1]⟩, 0⟩ : Frame), .ok ())
    ∧ wrap64 (1 * 2 ^ ((32 : Int) % 64).toNat) = 4294967296
    ∧ (4294967296 : Int) ≠ 1 :=
  ⟨rfl, rfl, rfl, rfl, rfl, by decide, by decide⟩

/-- C4: with a NaN operand, fcmpg and fcmpl (and dcmpg and dcmpl)
both push 0 - not +1 and -1 as the claim states - because the compare
macro falls through to the equal case when both IEEE comparisons are
false; lcmp does push +1, -1 or 0 by the signed comparison. -/
theorem c4_nan_compare_eval :
    executeInstruction vmEmptyFx
        (⟨0, [], ⟨8, [.float (.fin 1), .float .nan]⟩, 0⟩ : Frame) .fcmpg
      = ((⟨0, [], ⟨8, [.int 0]⟩, 0⟩ : Frame), .ok ())
    ∧ executeInstruction vmEmptyFx
        (⟨0, [], ⟨8, [.float (.fin 1), .float .nan]⟩, 0⟩ : Frame) .fcmpl
      = ((⟨0, [], ⟨8, [.int 0]⟩, 0⟩ : Frame), .ok ())
    ∧ executeInstruction vmEmptyFx
        (⟨0, [], ⟨8, [.double (.fin 1), .double .nan]⟩, 0⟩ : Frame) .dcmpg
      = ((⟨0, [], ⟨8, [.int 0]⟩, 0⟩ : Frame), .ok ())
    ∧ executeInstruction vmEmptyFx
        (⟨0, [], ⟨8, [.double (.fin 1), .double .nan]⟩, 0⟩ : Frame) .dcmpl
      = ((⟨0, [], ⟨8, [.int 0]⟩, 0⟩ : Frame), .ok ())
    ∧ executeInstruction vmEmptyFx (⟨0, [], ⟨8, [.long 3, .long 5]⟩, 0⟩ : Frame) .lcmp
      = ((⟨0, [], ⟨8, [.int 1]⟩, 0⟩ : Frame), .ok ())
    ∧ executeInstruction vmEmptyFx (⟨0, [], ⟨8, [.long 5, .long 3]⟩, 0⟩ : Frame) .lcmp
      = ((⟨0, [], ⟨8, [.int (-1)]⟩, 0⟩ : Frame), .ok ())
    ∧ executeInstruction vmEmptyFx (⟨0, [], ⟨8, [.long 5, .long 5]⟩, 0⟩ : Frame) .lcmp
      = ((⟨0, [], ⟨8, [.int 0]⟩, 0⟩ : Frame), .ok ())
    ∧ (JValue.int 0 ≠ JValue.int 1)
    ∧ (JValue.int 0 ≠ JValue.int (-1)) :=
  ⟨rfl, rfl, rfl, rfl, rfl, rfl, rfl, by decide, by decide⟩

/-- C5: for a virtual or interface invocation with an instance
receiver, the invoked method is re-selected by searching for the
referenced (name, descriptor) from the receiver's runtime class up the
superclass chain, overriding the statically selected method: when the
receiver's class overrides the method, its version is selected
whatever class and method were statically picked; and when the
receiver's class does not declare it, the search walks to the
superclass that does. -/
theorem c5_virtual_dispatch
    (classes : List JClass) (o : AbsObject) (bCls aCls : JClass)
    (n d : String) (mB mA : JMethod)
    (hkind : o.kind = .object)
    (hfind : findClassById classes o.classId = some bCls)
    (hm : findMethod bCls n d = some mB)
    (hn : mA.name = n) (hd : mA.descriptor = d)
    (classes2 : List JClass) (o2 : AbsObject) (cCls2 bCls2 aCls2 : JClass)
    (n2 d2 : String) (mB2 mA2 : JMethod) (sid2 : Nat)
    (hkind2 : o2.kind = .object)
    (hfind2 : findClassById classes2 o2.classId = some cCls2)
    (hnone2 : findMethod cCls2 n2 d2 = none)
    (hsup2 : cCls2.superId = some sid2)
    (hsupc2 : findClassById classes2 sid2 = some bCls2)
    (hm2 : findMethod bCls2 n2 d2 = some mB2)
    (hn2 : mA2.name = n2) (hd2 : mA2.descriptor = d2) :
    (resolveVirtualMethod classes (some o) (aCls, mA)
        = getMethodCheckingSuperclasses classes bCls n d
      ∧ resolveVirtualMethod classes (some o) (aCls, mA) = .ok (bCls, mB))
    ∧ resolveVirtualMethod classes2 (some o2) (aCls2, mA2) = .ok (bCls2, mB2) := by
  refine ⟨⟨?_, ?_⟩, ?_⟩
  · simp [resolveVirtualMethod, hkind, hfind, hn, hd]
  · simp [resolveVirtualMethod, hkind, hfind, getMethodCheckingSuperclasses,
      methodChainSearch, hn, hd, hm]
  · simp only [resolveVirtualMethod, hkind2, hfind2, getMethodCheckingSuperclasses,
      hn2, hd2]
    cases hl : classes2.length with
    | zero =>
      have hnilc : classes2 = [] := List.length_eq_zero.mp hl
      subst hnilc
      simp [findClassById] at hsupc2
    | succ k =>
      simp [methodChainSearch, hnone2, hsup2, hsupc2, hm2]

/-- C5 witness: invoking m()I statically selected on A against a B
instance (B overrides m) selects B's version, and against a C instance
(C extends B, no m) the walk selects B's version. -/
theorem c5_witness :
    (((⟨7, .object, 11, .base .int⟩ : AbsObject).kind = .object
      ∧ findClassById [classAFx, classBFx, classCFx]
          (⟨7, .object, 11, .base .int⟩ : AbsObject).classId = some classBFx
      ∧ findMethod classBFx "m" "()I" = some methodMFx
      ∧ methodMFx.name = "m" ∧ methodMFx.descriptor = "()I")
    ∧ ((⟨8, .object, 12, .base .int⟩ : AbsObject).kind = .object
      ∧ findClassById [classAFx, classBFx, classCFx]
          (⟨8, .object, 12, .base .int⟩ : AbsObject).classId = some classCFx
      ∧ findMethod classCFx "m" "()I" = none
      ∧ classCFx.superId = some 11
      ∧ findClassById [classAFx, classBFx, classCFx] 11 = some classBFx
      ∧ findMethod classBFx "m" "()I" = some methodMFx))
    ∧ ((resolveVirtualMethod [classAFx, classBFx, classCFx]
          (some (⟨7, .object, 11, .base .int⟩ : AbsObject)) (classAFx, methodMFx)
        = getMethodCheckingSuperclasses [classAFx, classBFx, classCFx] classBFx "m" "()I"
      ∧ resolveVirtualMethod [classAFx, classBFx, classCFx]
          (some (⟨7, .object, 11, .base .int⟩ : AbsObject)) (classAFx, methodMFx)
        = .ok (classBFx, methodMFx))
    ∧ resolveVirtualMethod [classAFx, classBFx, classCFx]
        (some (⟨8, .object, 12, .base .int⟩ : AbsObject)) (classAFx, methodMFx)
      = .ok (classBFx, methodMFx)) :=
  ⟨⟨⟨rfl, by decide, by decide, rfl, rfl⟩,
    ⟨rfl, by decide, by decide, by decide, by decide, by decide⟩⟩,
    c5_virtual_dispatch [classAFx, classBFx, classCFx]
      (⟨7, .object, 11, .base .int⟩ : AbsObject) classBFx classAFx "m" "()I"
      methodMFx methodMFx rfl (by decide) (by decide) rfl rfl
      [classAFx, classBFx, classCFx]
      (⟨8, .object, 12, .base .int⟩ : AbsObject) classCFx classBFx classAFx "m" "()I"
      methodMFx methodMFx 11 rfl (by decide) (by decide) (by decide) (by decide)
      (by decide) rfl rfl⟩

/-- C6: iadd, isub and imul push the two's-complement wrapping 32-bit
result, and ladd, lsub and lmul the wrapping 64-bit result, of the two
operands, completing without any failure; the wrapped results lie in
the 32-bit and 64-bit two's-complement ranges, and in particular
wrapping Integer.MAX_VALUE + 1 gives -2147483648. -/
theorem c6_wrapping_arithmetic (vm : VmState) (f g : Frame) (a b c d : Int)
    (rest rest2 : List JValue)
    (hf : f.stack.values = .int b :: .int a :: rest)
    (hcapf : f.stack.values.length ≤ f.stack.maxSize)
    (hg : g.stack.values = .long d :: .long c :: rest2)
    (hcapg : g.stack.values.length ≤ g.stack.maxSize) :
    executeInstruction vm f .iadd = (f.withValues (.int (wrap32 (a + b)) :: rest), .ok ())
    ∧ executeInstruction vm f .isub = (f.withValues (.int (wrap32 (a - b)) :: rest), .ok ())
    ∧ executeInstruction vm f .imul = (f.withValues (.int (wrap32 (a * b)) :: rest), .ok ())
    ∧ executeInstruction vm g .ladd = (g.withValues (.long (wrap64 (c + d)) :: rest2), .ok ())
    ∧ executeInstruction vm g .lsub = (g.withValues (.long (wrap64 (c - d)) :: rest2), .ok ())
    ∧ executeInstruction vm g .lmul = (g.withValues (.long (wrap64 (c * d)) :: rest2), .ok ())
    ∧ (-(2 ^ 31) ≤ wrap32 (a + b) ∧ wrap32 (a + b) < 2 ^ 31)
    ∧ (-(2 ^ 63) ≤ wrap64 (c + d) ∧ wrap64 (c + d) < 2 ^ 63)
    ∧ wrap32 (2147483647 + 1) = -2147483648 := by
  have hlenf : rest.length < f.stack.maxSize := by
    rw [hf] at hcapf; simp at hcapf; omega
  have hleng : rest2.length < g.stack.maxSize := by
    rw [hg] at hcapg; simp at hcapg; omega
  refine ⟨?_, ?_, ?_, ?_, ?_, ?_, ?_, ?_, by decide⟩
  · simp [executeInstruction, executeIntMath, popIntF, pushF, Frame.withValues, hf, hlenf]
  · simp [executeInstruction, executeIntMath, popIntF, pushF, Frame.withValues, hf, hlenf]
  · simp [executeInstruction, executeIntMath, popIntF, pushF, Frame.withValues, hf, hlenf]
  · simp [executeInstruction, executeLongMath, popLongF, pushF, Frame.withValues, hg, hleng]
  · simp [executeInstruction, executeLongMath, popLongF, pushF, Frame.withValues, hg, hleng]
  · simp [executeInstruction, executeLongMath, popLongF, pushF, Frame.withValues, hg, hleng]
  · unfold wrap32
    constructor
    · have := Int.emod_nonneg (a + b + 2 ^ 31) (by norm_num : (2 ^ 32 : Int) ≠ 0)
      omega
    · have := Int.emod_lt_of_pos (a + b + 2 ^ 31) (by norm_num : (0 : Int) < 2 ^ 32)
      omega
  · unfold wrap64
    constructor
    · have := Int.emod_nonneg (c + d + 2 ^ 63) (by norm_num : (2 ^ 64 : Int) ≠ 0)
      omega
    · have := Int.emod_lt_of_pos (c + d + 2 ^ 63) (by norm_num : (0 : Int) < 2 ^ 64)
      omega

/-- C6 witness: the wrapping theorem applied to Integer.MAX_VALUE + 1
and Long.MAX_VALUE + 1. -/
theorem c6_witness :
    ((⟨0, [], ⟨8, [.int 1, .int 2147483647]⟩, 0⟩ : Frame).stack.values
        = .int 1 :: .int 2147483647 :: []
      ∧ (⟨0, [], ⟨8, [.int 1, .int 2147483647]⟩, 0⟩ : Frame).stack.values.length
        ≤ (⟨0, [], ⟨8, [.int 1, .int 2147483647]⟩, 0⟩ : Frame).stack.maxSize
      ∧ (⟨0, [], ⟨8, [.long 1, .long 9223372036854775807]⟩, 0⟩ : Frame).stack.values
        = .long 1 :: .long 9223372036854775807 :: []
      ∧ (⟨0, [], ⟨8, [.long 1, .long 9223372036854775807]⟩, 0⟩ : Frame).stack.values.length
        ≤ (⟨0, [], ⟨8, [.long 1, .long 9223372036854775807]⟩, 0⟩ : Frame).stack.maxSize)
    ∧ (executeInstruction vmEmptyFx (⟨0, [], ⟨8, [.int 1, .int 2147483647]⟩, 0⟩ : Frame) .iadd
        = ((⟨0, [], ⟨8, [.int 1, .int 2147483647]⟩, 0⟩ : Frame).withValues
            (.int (wrap32 (2147483647 + 1)) :: []), .ok ())
      ∧ executeInstruction vmEmptyFx (⟨0, [], ⟨8, [.int 1, .int 2147483647]⟩, 0⟩ : Frame) .isub
        = ((⟨0, [], ⟨8, [.int 1, .int 2147483647]⟩, 0⟩ : Frame).withValues
            (.int (wrap32 (2147483647 - 1)) :: []), .ok ())
      ∧ executeInstruction vmEmptyFx (⟨0, [], ⟨8, [.int 1, .int 2147483647]⟩, 0⟩ : Frame) .imul
        = ((⟨0, [], ⟨8, [.int 1, .int 2147483647]⟩, 0⟩ : Frame).withValues
            (.int (wrap32 (2147483647 * 1)) :: []), .ok ())
      ∧ executeInstruction vmEmptyFx
          (⟨0, [], ⟨8, [.long 1, .long 9223372036854775807]⟩, 0⟩ : Frame) .ladd
        = ((⟨0, [], ⟨8, [.long 1, .long 9223372036854775807]⟩, 0⟩ : Frame).withValues
            (.long (wrap64 (9223372036854775807 + 1)) :: []), .ok ())
      ∧ executeInstruction vmEmptyFx
          (⟨0, [], ⟨8, [.long 1, .long 9223372036854775807]⟩, 0⟩ : Frame) .lsub
        = ((⟨0, [], ⟨8, [.long 1, .long 9223372036854775807]⟩, 0⟩ : Frame).withValues
            (.long (wrap64 (9223372036854775807 - 1)) :: []), .ok ())
      ∧ executeInstruction vmEmptyFx
          (⟨0, [], ⟨8, [.long 1, .long 9223372036854775807]⟩, 0⟩ : Frame) .lmul
        = ((⟨0, [], ⟨8, [.long 1, .long 9223372036854775807]⟩, 0⟩ : Frame).withValues
            (.long (wrap64 (9223372036854775807 * 1)) :: []), .ok ())
      ∧ (-(2 ^ 31) ≤ wrap32 (2147483647 + 1) ∧ wrap32 (2147483647 + 1) < 2 ^ 31)
      ∧ (-(2 ^ 63) ≤ wrap64 (9223372036854775807 + 1)
          ∧ wrap64 (9223372036854775807 + 1) < 2 ^ 63)
      ∧ wrap32 (2147483647 + 1) = -2147483648) :=
  ⟨⟨rfl, by decide, rfl, by decide⟩,
    c6_wrapping_arithmetic vmEmptyFx
      (⟨0, [], ⟨8, [.int 1, .int 2147483647]⟩, 0⟩ : Frame)
      (⟨0, [], ⟨8, [.long 1, .long 9223372036854775807]⟩, 0⟩ : Frame)
      2147483647 1 9223372036854775807 1 [] []
      rfl (by decide) rfl (by decide)⟩

/-- C7 counterexample: executing athrow with Null on top of the stack
under a catch-any handler fails with the interpreter-internal
`ValidationException`; no NullPointerException object is created and
nothing is catchable. -/
theorem c7_counterexample :
    stepWithHandlers vmFx tblCatchAllFx (⟨0, [], ⟨8, [.null]⟩, 0⟩ : Frame) .athrow
      = .failed (.internalError .validationException)
    ∧ VmError.validationException ≠ VmError.nullPointerException := by
  exact ⟨by decide, by decide⟩

/-- C7 (as amended): athrow pops the operand; an object reference is
thrown as a Java exception, but a Null operand is NOT promoted to a
NullPointerException - it fails with the interpreter-internal
`ValidationException`. -/
theorem c7_athrow_null (vm : VmState) (f g : Frame) (o : AbsObject)
    (rest rest2 : List JValue)
    (hf : f.stack.values = .null :: rest)
    (hg : g.stack.values = .object o :: rest2) :
    executeInstruction vm f .athrow
      = (f.withValues rest, .error (.internalError .validationException))
    ∧ executeInstruction vm g .athrow
      = (g.withValues rest2, .error (.exceptionThrown o)) := by
  constructor
  · simp [executeInstruction, executeAthrow, popF, Frame.withValues, hf]
  · simp [executeInstruction, executeAthrow, popF, Frame.withValues, hg]

/-- C7 witness: athrow on a Null operand and on an object operand. -/
theorem c7_witness :
    ((⟨0, [], ⟨8, [.null]⟩, 0⟩ : Frame).stack.values = .null :: []
      ∧ (⟨0, [], ⟨8, [.object excObjFx]⟩, 0⟩ : Frame).stack.values = .object excObjFx :: [])
    ∧ (executeInstruction vmEmptyFx (⟨0, [], ⟨8, [.null]⟩, 0⟩ : Frame) .athrow
        = ((⟨0, [], ⟨8, [.null]⟩, 0⟩ : Frame).withValues [],
            .error (.internalError .validationException))
      ∧ executeInstruction vmEmptyFx (⟨0, [], ⟨8, [.object excObjFx]⟩, 0⟩ : Frame) .athrow
        = ((⟨0, [], ⟨8, [.object excObjFx]⟩, 0⟩ : Frame).withValues [],
            .error (.exceptionThrown excObjFx))) :=
  ⟨⟨rfl, rfl⟩,
    c7_athrow_null vmEmptyFx
      (⟨0, [], ⟨8, [.null]⟩, 0⟩ : Frame)
      (⟨0, [], ⟨8, [.object excObjFx]⟩, 0⟩ : Frame)
      excObjFx [] [] rfl rfl⟩

/-- C8: a getstatic naming field x of class B, executed from a method
of class A (current class id 0), reads the static instance of class A
- whose only field holds int 11 - at the index computed from B's field
layout, and pushes 11; class B's own static instance holds int 22, so
the value is NOT read from the static instance of the class named by
the field reference. -/
theorem c8_getstatic_wrong_instance_eval :
    executeGetstatic vmStaticsFx (⟨0, [], ⟨8, []⟩, 0⟩ : Frame) "B" "x"
      = ((⟨0, [], ⟨8, [.int 11]⟩, 0⟩ : Frame), .ok ())
    ∧ lookupStatic vmStaticsFx.statics 0 = some ⟨[.int 11]⟩
    ∧ lookupStatic vmStaticsFx.statics 1 = some ⟨[.int 22]⟩
    ∧ (JValue.int 11 ≠ JValue.int 22) :=
  ⟨rfl, rfl, rfl, by decide⟩

/-- C9 counterexample: monitorenter is not a no-op - it pops the
object reference off the operand stack (the stack shrinks), and on a
Null operand it does not complete successfully but fails with a
validation error. -/
theorem c9_counterexample :
    executeInstruction vmEmptyFx (⟨0, [], ⟨8, [.object objInstFx]⟩, 0⟩ : Frame) .monitorenter
      = ((⟨0, [], ⟨8, []⟩, 0⟩ : Frame), .ok ())
    ∧ (([] : List JValue) ≠ [.object objInstFx])
    ∧ executeInstruction vmEmptyFx (⟨0, [], ⟨8, [.null]⟩, 0⟩ : Frame) .monitorenter
      = ((⟨0, [], ⟨8, []⟩, 0⟩ : Frame), .error (.internalError .validationException)) :=
  ⟨rfl, by decide, rfl⟩

/-- C9 (as amended): monitorenter and monitorexit pop the top operand;
with an object reference on top they succeed and have no further
effect (no lock is taken), and with any non-object operand they fail
with the interpreter-internal `ValidationException`; in both cases the
popped value is gone from the operand stack. -/
theorem c9_monitor_pops (vm : VmState) (f g : Frame) (o : AbsObject) (v : JValue)
    (rest rest2 : List JValue)
    (hf : f.stack.values = .object o :: rest)
    (hg : g.stack.values = v :: rest2)
    (hv : v.isObjectRef = false) :
    executeInstruction vm f .monitorenter = (f.withValues rest, .ok ())
    ∧ executeInstruction vm f .monitorexit = (f.withValues rest, .ok ())
    ∧ executeInstruction vm g .monitorenter
        = (g.withValues rest2, .error (.internalError .validationException))
    ∧ executeInstruction vm g .monitorexit
        = (g.withValues rest2, .error (.internalError .validationException)) := by
  refine ⟨?_, ?_, ?_, ?_⟩
  · simp [executeInstruction, executeMonitorenter, popF, Frame.withValues, hf]
  · simp [executeInstruction, executeMonitorexit, popF, Frame.withValues, hf]
  · cases v <;> simp_all [executeInstruction, executeMonitorenter, popF,
      Frame.withValues, JValue.isObjectRef]
  · cases v <;> simp_all [executeInstruction, executeMonitorexit, popF,
      Frame.withValues, JValue.isObjectRef]

/-- C9 witness: the monitor opcodes applied to an object operand and
to a Null operand. -/
theorem c9_witness :
    ((⟨0, [], ⟨8, [.object objInstFx]⟩, 0⟩ : Frame).stack.values = .object objInstFx :: []
      ∧ (⟨0, [], ⟨8, [.null]⟩, 0⟩ : Frame).stack.values = .null :: []
      ∧ JValue.null.isObjectRef = false)
    ∧ (executeInstruction vmEmptyFx
          (⟨0, [], ⟨8, [.object objInstFx]⟩, 0⟩ : Frame) .monitorenter
        = ((⟨0, [], ⟨8, [.object objInstFx]⟩, 0⟩ : Frame).withValues [], .ok ())
      ∧ executeInstruction vmEmptyFx
          (⟨0, [], ⟨8, [.object objInstFx]⟩, 0⟩ : Frame) .monitorexit
        = ((⟨0, [], ⟨8, [.object objInstFx]⟩, 0⟩ : Frame).withValues [], .ok ())
      ∧ executeInstruction vmEmptyFx (⟨0, [], ⟨8, [.null]⟩, 0⟩ : Frame) .monitorenter
        = ((⟨0, [], ⟨8, [.null]⟩, 0⟩ : Frame).withValues [],
            .error (.internalError .validationException))
      ∧ executeInstruction vmEmptyFx (⟨0, [], ⟨8, [.null]⟩, 0⟩ : Frame) .monitorexit
        = ((⟨0, [], ⟨8, [.null]⟩, 0⟩ : Frame).withValues [],
            .error (.internalError .validationException))) :=
  ⟨⟨rfl, rfl, rfl⟩,
    c9_monitor_pops vmEmptyFx
      (⟨0, [], ⟨8, [.object objInstFx]⟩, 0⟩ : Frame)
      (⟨0, [], ⟨8, [.null]⟩, 0⟩ : Frame)
      objInstFx .null [] [] rfl rfl rfl⟩

/-- C10: ClassPath::push is atomic with respect to errors: when some
colon-separated component of the string parses neither as a jar
archive nor as a directory, push returns the InvalidEntry error naming
the first such component and the classpath's entry list is exactly what
it was before the call - components that parsed successfully earlier
in the same string are not appended. -/
theorem c10_push_atomic (tryJar tryDir : String → Bool) (cp : ClassPath) (s p : String)
    (hfail : firstFailing tryJar tryDir (splitColon s) = some p) :
    ClassPath.push tryJar tryDir cp s = (.error (.invalidEntry p), cp) := by
  simp [ClassPath.push, pushLoop_first_fail tryJar tryDir p (splitColon s) [] hfail]

/-- C10 witness: pushing "goodjar:bad" where only "goodjar" parses (as
a jar): the call errors on "bad" and the pre-existing entry list is
returned unchanged, without the successfully parsed "goodjar". -/
theorem c10_witness :
    firstFailing (fun e => e == "goodjar") (fun _ => false) (splitColon "goodjar:bad")
      = some "bad"
    ∧ ClassPath.push (fun e => e == "goodjar") (fun _ => false)
        (⟨[.dirEntry "z"]⟩ : ClassPath) "goodjar:bad"
      = (.error (.invalidEntry "bad"), (⟨[.dirEntry "z"]⟩ : ClassPath)) :=
  ⟨by decide,
    c10_push_atomic (fun e => e == "goodjar") (fun _ => false)
      (⟨[.dirEntry "z"]⟩ : ClassPath) "goodjar:bad" "bad" (by decide)⟩

end Rjvm
